import Mathlib

/-!
Verification of the PaisaPro multi-source price-comparison and cart-optimization
engine against its design specification.  The React front end under
`frontend/src/pages` and the standalone component files are embedded as pure
Lean functions over explicit state; the back-end engine
(`sda_app/fastapi_backend.py`, not part of the sources at hand) is modelled
from the specification where a claim depends on it, and each such definition
is marked in its doc comment.
-/

namespace PaisaPro

/-- A price recommendation as consumed by the optimized-cart view
(`frontend/src/pages/OptimizedCart.jsx`): source name, reference-currency
price in USD, a 1-based `rank`, and a product URL. -/
structure Recommendation where
  source : String
  price_usd : ℚ
  rank : Nat
  url : String
deriving DecidableEq

/-- A cart line item as consumed by the optimized-cart view: product name,
requested quantity, lifecycle status string, and the ranked recommendation
list returned by the back end. -/
structure CartItem where
  product_name : String
  quantity : Nat
  status : String
  recommendations : List Recommendation
deriving DecidableEq

/-- The per-item contribution inside the `forEach` loop of
`calculatePotentialSavingsUSD` (`OptimizedCart.jsx`): when the item has more
than one recommendation, look up the rank-1 and rank-2 entries with `find`
and add `(nextBest.price_usd - best.price_usd) * item.quantity`; otherwise
contribute nothing. -/
def itemSavings (item : CartItem) : ℚ :=
  if item.recommendations.length > 1 then
    match item.recommendations.find? (fun r => r.rank == 1),
          item.recommendations.find? (fun r => r.rank == 2) with
    | some best, some nextBest => (nextBest.price_usd - best.price_usd) * (item.quantity : ℚ)
    | _, _ => 0
  else 0

/-- `calculatePotentialSavingsUSD` from `OptimizedCart.jsx`: fold the per-item
savings contributions over the cart items, starting from `0`. -/
def calculatePotentialSavingsUSD (items : List CartItem) : ℚ :=
  items.foldl (fun savings item => savings + itemSavings item) 0

/-- The rank fields of a recommendation list are positional: the entry at
list index `i` carries rank `i + 1` (rank is 1-based and matches list
order). -/
def ranksPositional (recs : List Recommendation) : Prop :=
  ∀ i : Fin recs.length, (recs.get i).rank = i.val + 1

/-- The recommendation list is ordered ascending by reference-currency
price: each entry costs no more than the next one. -/
def pricesAscending (recs : List Recommendation) : Prop :=
  List.Chain' (fun a b => a.price_usd ≤ b.price_usd) recs

/-- The savings formula as the specification states it:
`quantity * (price(rank 2) - price(rank 1))` when a second-ranked option
exists, else `0` for that item.  Under `ranksPositional` the rank-1 and
rank-2 entries are the first two list positions. -/
def specItemSavings (item : CartItem) : ℚ :=
  match item.recommendations with
  | a :: b :: _ => (item.quantity : ℚ) * (b.price_usd - a.price_usd)
  | _ => 0

/-- Concrete rank-1 recommendation for witnesses: milk at 2 USD. -/
def milkBest : Recommendation :=
  { source := "daraz", price_usd := 2, rank := 1, url := "https://daraz.pk/milk" }

/-- Concrete rank-2 recommendation for witnesses: milk at 3 USD. -/
def milkNext : Recommendation :=
  { source := "alfatah", price_usd := 3, rank := 2, url := "https://alfatah.pk/milk" }

/-- A single-line-item cart for witnesses: milk, quantity 2, with the two
recommendations above. -/
def milkItem : CartItem :=
  { product_name := "milk", quantity := 2, status := "priced"
    recommendations := [milkBest, milkNext] }

instance instDecidableRanksPositional (recs : List Recommendation) :
    Decidable (ranksPositional recs) :=
  inferInstanceAs (Decidable (∀ i : Fin recs.length, (recs.get i).rank = i.val + 1))

/-- The JavaScript `String.prototype.trim()`: drop whitespace from both ends
of the string (written over the character list so that it evaluates inside
the kernel). -/
def trimString (s : String) : String :=
  ⟨((s.data.dropWhile Char.isWhitespace).reverse.dropWhile Char.isWhitespace).reverse⟩

/-- Whether the first character list is a leading segment of the second. -/
def charsPrefixOf : List Char → List Char → Bool
  | [], _ => true
  | _ :: _, [] => false
  | a :: as, b :: bs => a == b && charsPrefixOf as bs

/-- The JavaScript `String.prototype.startsWith(pre)` for string `s`. -/
def startsWithString (s pre : String) : Bool :=
  charsPrefixOf pre.data s.data

/-- A product record as consumed by the price-comparison views
(`PriceComparison.jsx` and the standalone `PriceComparisonApp`): source name,
display name, local (PKR) and reference (USD) prices and a product URL,
where the string `N/A` is the sentinel for an unavailable URL. -/
structure Product where
  source : String
  name : String
  price_pkr : ℚ
  price_usd : ℚ
  url : String
deriving DecidableEq

/-- The state of the price-comparison view that the search handler touches:
the displayed product list, the error message, and the loading flag. -/
structure UIState where
  products : List Product
  error : String
  loading : Bool
deriving DecidableEq

/-- The outcome of the `fetch` inside `handleSearch`: either the parsed JSON
body (a bare array of products, as the view consumes it), or a non-ok
response, which the code turns into a thrown error. -/
inductive FetchResult where
  | ok (data : List Product)
  | httpError
deriving DecidableEq

/-- An outbound request to the compare endpoint, identified by its query
parameters (in the order `URLSearchParams` receives them). -/
structure SearchRequest where
  params : List (String × String)
deriving DecidableEq

/-- The query parameters built by `handleSearch` (`PriceComparison.jsx`):
always `query`, `top_n`, `sort`, `equal_distribution`, `parallel`; the
`sources` parameter is appended only when the selected source list is
non-empty. -/
def mkSearchParams (q : String) (srcs : List String) (topN : Nat)
    (sortByPrice equalDistribution : Bool) : List (String × String) :=
  [("query", q), ("top_n", toString topN), ("sort", toString sortByPrice),
    ("equal_distribution", toString equalDistribution), ("parallel", toString true)] ++
  (if srcs.length > 0 then [("sources", String.intercalate "," srcs)] else [])

/-- `handleSearch` from `PriceComparison.jsx`: if the trimmed query is empty,
set the error message and return without issuing a request (state otherwise
unchanged); otherwise clear error and products, issue the request, and on a
parsed body store it as the product list, while a non-ok response leaves the
products empty and sets the fetch-failure message.  Returns the new view
state and the request issued, if any. -/
def handleSearch (q : String) (srcs : List String) (topN : Nat)
    (sortByPrice equalDistribution : Bool) (res : FetchResult) (prev : UIState) :
    UIState × Option SearchRequest :=
  if trimString q = "" then
    ({ prev with error := "Please enter a search query" }, none)
  else
    match res with
    | FetchResult.ok data =>
        ({ products := data, error := "", loading := false },
          some ⟨mkSearchParams q srcs topN sortByPrice equalDistribution⟩)
    | FetchResult.httpError =>
        ({ products := [],
           error := "Failed to fetch products. Make sure the FastAPI backend is running on port 8001.",
           loading := false },
          some ⟨mkSearchParams q srcs topN sortByPrice equalDistribution⟩)

/-- The per-source outcome of one fan-out search: the source name and either
the list of products it produced or `none` when it failed or timed out. -/
structure SourceOutcome where
  sourceName : String
  result : Option (List Product)
deriving DecidableEq

/-- Modelled from the spec: the Fan-Out Query Coordinator (sect. 4.3, code in
`sda_app/fastapi_backend.py`, not under the sources at hand) collects the
records of every source that completed; a failed or timed-out source
contributes zero records. -/
def coordinatorResults (outcomes : List SourceOutcome) : List Product :=
  (outcomes.map (fun o => o.result.getD [])).flatten

/-- Modelled from the spec: the names of the sources that failed or timed
out during one fan-out search (the PartialFailureReport of sect. 4.3). -/
def failedSources (outcomes : List SourceOutcome) : List String :=
  (outcomes.filter (fun o => o.result.isNone)).map (fun o => o.sourceName)

/-- The view state the caller ends up with after a search whose fan-out saw
the given per-source outcomes: the compare endpoint body is the bare product
array (as `PriceComparison.jsx` consumes it), fed through `handleSearch`. -/
def deliverSearchResponse (q : String) (srcs : List String)
    (outcomes : List SourceOutcome) (prev : UIState) : UIState :=
  (handleSearch q srcs 10 true false (FetchResult.ok (coordinatorResults outcomes)) prev).1

/-- The initial view state of the price-comparison page. -/
def uiInit : UIState := { products := [], error := "", loading := false }

/-- A concrete milk product used in counterexamples. -/
def milkProduct : Product :=
  { source := "Alfatah", name := "Milk 1L", price_pkr := 556, price_usd := 2,
    url := "https://alfatah.pk/milk" }

/-- Fan-out outcomes where every source answered but two returned nothing. -/
def outcomesAllOk : List SourceOutcome :=
  [⟨"alfatah", some [milkProduct]⟩, ⟨"daraz", some []⟩, ⟨"imtiaz", some []⟩]

/-- Fan-out outcomes where two of the three sources failed. -/
def outcomesTwoFailed : List SourceOutcome :=
  [⟨"alfatah", some [milkProduct]⟩, ⟨"daraz", none⟩, ⟨"imtiaz", none⟩]

/-- The condition under which the standalone `PriceComparisonApp`
(`components/ui.jsx`) renders the View Product link: the URL differs from
the `N/A` sentinel. -/
def appShowsLink (url : String) : Bool :=
  url != "N/A"

/-- The condition under which the `PriceComparison.jsx` page renders the
View Product link: the URL is truthy (non-empty), differs from the `N/A`
sentinel, and starts with `http`. -/
def pageShowsLink (url : String) : Bool :=
  url != "" && url != "N/A" && startsWithString url "http"

/-- The numeric value of a digit sequence (most significant first). -/
def digitsVal (cs : List Char) : Nat :=
  cs.foldl (fun n c => n * 10 + (c.toNat - 48)) 0

/-- The JavaScript `parseInt(s)` in base 10: skip surrounding whitespace,
read an optional sign and the longest leading digit run; `none` models the
`NaN` result when no digit is found. -/
def parseIntJS (s : String) : Option Int :=
  match (trimString s).data with
  | '-' :: rest =>
      let ds := rest.takeWhile Char.isDigit
      if ds.isEmpty then none else some (-(digitsVal ds : Int))
  | '+' :: rest =>
      let ds := rest.takeWhile Char.isDigit
      if ds.isEmpty then none else some ((digitsVal ds : Int))
  | cs =>
      let ds := cs.takeWhile Char.isDigit
      if ds.isEmpty then none else some ((digitsVal ds : Int))

/-- The quantity branch of `handleItemChange` in the shopping-list creation
form (`ShoppingList.jsx`): an empty input stays the empty string; otherwise
the stored value is `parseInt(value) ||` the empty string, so a `NaN` or
zero parse collapses to the empty string.  `none` models the empty-string
state of the field. -/
def quantityAfterChange (value : String) : Option Int :=
  if value = "" then none
  else
    match parseIntJS value with
    | none => none
    | some n => if n = 0 then none else some n

/-- The `onBlur` handler of the quantity input (`ShoppingList.jsx`): when the
stored quantity is the empty string or zero it is replaced with 1, otherwise
it is left alone. -/
def quantityOnBlur (q : Option Int) : Option Int :=
  if q = none ∨ q = some 0 then some 1 else q

/-- A line of the shopping-list creation form: a product name and a
quantity that is either the empty string (`none`) or an integer. -/
structure FormItem where
  product_name : String
  quantity : Option Int
deriving DecidableEq

/-- The validity filter inside `handleCreateList` (`ShoppingList.jsx`): the
trimmed product name is non-empty, and the quantity is not the empty string
and parses to a value greater than zero. -/
def itemValid (it : FormItem) : Bool :=
  (trimString it.product_name != "") &&
  (match it.quantity with
    | none => false
    | some n => decide (0 < n))

/-- The create-cart request body sent by `handleCreateList`: the list name
and the filtered valid items. -/
structure CreateRequest where
  list_name : String
  items : List FormItem
deriving DecidableEq

/-- `handleCreateList` from `ShoppingList.jsx`: reject an empty (trimmed)
list name; keep only the items passing `itemValid` and reject when none
survives; reject an unauthenticated user; otherwise send the create request
with exactly the valid items.  Returns the request issued (if any), the
error message, and the stored lists state, which this handler never
touches. -/
def handleCreateList (listName : String) (items : List FormItem) (userOk : Bool)
    (prevLists : List String) : Option CreateRequest × String × List String :=
  if trimString listName = "" then
    (none, "Please enter a list name", prevLists)
  else if (items.filter itemValid).isEmpty then
    (none, "Please add at least one item with a valid name and quantity", prevLists)
  else if userOk = false then
    (none, "User not authenticated", prevLists)
  else
    (some { list_name := listName, items := items.filter itemValid }, "", prevLists)

/-- The expense-data reply of the cart service (`/cart/{id}/expense-data`):
a success flag and the cart total in the reference currency. -/
structure ExpenseData where
  success : Bool
  amount : ℚ
deriving DecidableEq

/-- The expense event posted to the Django ledger by `confirmPurchaseAll`
(`MyShoppingLists.jsx`). -/
structure ExpensePayload where
  description : String
  amount : ℚ
  category : String
  expense_date : String
deriving DecidableEq

/-- `confirmPurchaseAll` from `MyShoppingLists.jsx`: fetch the expense data,
mark every item purchased (aborting if that fails), then post exactly one
expense `{description = list name, amount, category = shopping, today}` when
the fetched data succeeded with a positive amount, and post nothing
otherwise.  Returns the posted expense events and whether the purchase-all
call went through. -/
def confirmPurchaseAll (listName : String) (expenseData : ExpenseData)
    (purchaseOk : Bool) (today : String) : List ExpensePayload × Bool :=
  if purchaseOk = false then ([], false)
  else if expenseData.success = true ∧ 0 < expenseData.amount then
    ([{ description := listName, amount := expenseData.amount, category := "shopping",
        expense_date := today }], true)
  else ([], true)

/-- Modelled from the spec: a NormalizedProduct (sect. 3) as fed to the
Ranker/Selector of `sda_app/fastapi_backend.py`, which is not among the
sources at hand: a raw product plus its normalized prices, together with
the source-enumeration index and original arrival index that the spec uses
as deterministic tie-breaks. -/
structure NormalizedProduct where
  source : String
  srcIdx : Nat
  arrival : Nat
  name : String
  price_pkr : ℚ
  price_usd : ℚ
  url : String
deriving DecidableEq

/-- The sort key of the Ranker: reference-currency price first, then source
enumeration order, then arrival order (spec sect. 4.4 step 3). -/
def prodKey (p : NormalizedProduct) : ℚ ×ₗ (ℕ ×ₗ ℕ) :=
  toLex (p.price_usd, toLex (p.srcIdx, p.arrival))

/-- The ordering the Ranker sorts by: lexicographic comparison of keys. -/
def priceLe (a b : NormalizedProduct) : Prop :=
  prodKey a ≤ prodKey b

instance instDecidablePriceLe : DecidableRel priceLe := fun a b =>
  inferInstanceAs (Decidable (prodKey a ≤ prodKey b))

instance instTransPriceLe : IsTrans NormalizedProduct priceLe :=
  ⟨fun _ _ _ h1 h2 => le_trans h1 h2⟩

instance instTotalPriceLe : IsTotal NormalizedProduct priceLe :=
  ⟨fun a b => le_total (prodKey a) (prodKey b)⟩

/-- Modelled from the spec: the deduplication key of sect. 4.4 step 1 —
(source, URL) when a URL is present, otherwise (source, name). -/
def dKey (p : NormalizedProduct) : String × String :=
  if p.url ≠ "N/A" ∧ p.url ≠ "" then (p.source, p.url) else (p.source, p.name)

/-- Modelled from the spec: drop duplicate entries by key, keeping the
first occurrence (sect. 4.4 step 1). -/
def dedupFirst : List (String × String) → List NormalizedProduct → List NormalizedProduct
  | _, [] => []
  | seen, p :: rest =>
    if dKey p ∈ seen then dedupFirst seen rest
    else p :: dedupFirst (dKey p :: seen) rest

/-- The distinct source indices present in a record batch. -/
def sourceIds (l : List NormalizedProduct) : List Nat :=
  (l.map (fun p => p.srcIdx)).dedup

/-- Modelled from the spec: the equal-distribution step (sect. 4.4 step 2):
cap each source at `cap` records, choosing its own cheapest first. -/
def perSourceCap (cap : Nat) (l : List NormalizedProduct) : List NormalizedProduct :=
  (sourceIds l).flatMap
    (fun s => (List.insertionSort priceLe (l.filter (fun p => p.srcIdx == s))).take cap)

/-- Configuration of the Ranker/Selector (spec sect. 4.4). -/
structure SelectConfig where
  topN : Nat
  sortByPrice : Bool
  equalDistribution : Bool
deriving DecidableEq

/-- Modelled from the spec: a Recommendation of the engine — a normalized
product with its assigned 1-based rank (sect. 3). -/
structure Ranked where
  product : NormalizedProduct
  rank : Nat
deriving DecidableEq

/-- Assign rank `n` to the head and increasing ranks down the list; the
Ranker calls it with `n = 1`, so rank = position + 1 (sect. 4.4 step 5). -/
def assignRanks : Nat → List NormalizedProduct → List Ranked
  | _, [] => []
  | n, p :: rest => { product := p, rank := n } :: assignRanks (n + 1) rest

/-- The per-source cap step of `Select`, applied only when
`equalDistribution` is set, with cap `ceil(topN / sourceCount)`. -/
def capStep (cfg : SelectConfig) (l : List NormalizedProduct) : List NormalizedProduct :=
  if cfg.equalDistribution then
    perSourceCap ((cfg.topN + (sourceIds l).length - 1) / (sourceIds l).length) l
  else l

/-- Modelled from the spec: `Select` (sect. 4.4) — dedup, optional
per-source cap, ascending sort by normalized reference price with
deterministic tie-breaks when `sortByPrice` is set (otherwise arrival order
is kept), truncation to `topN`, and 1-based rank assignment by position. -/
def Select (cfg : SelectConfig) (records : List NormalizedProduct) : List Ranked :=
  assignRanks 1
    ((if cfg.sortByPrice then
        List.insertionSort priceLe (capStep cfg (dedupFirst [] records))
      else capStep cfg (dedupFirst [] records)).take cfg.topN)

/-- Modelled from the spec: an optimization snapshot record (sect. 3),
identified here by its reference-currency total and timestamp. -/
structure Snapshot where
  total_cost_usd : ℚ
  timestamp : Nat
deriving DecidableEq

/-- Modelled from the spec: the state of the Result Cache/Refresh Gate for
one cart (sect. 4.6): the stored snapshot if any, the advisory item count,
and a counter of the `Optimize` runs performed so far (recomputations). -/
structure GateState where
  snapshot : Option Snapshot
  itemCount : Nat
  optimizeRuns : Nat
deriving DecidableEq

/-- The operations reaching the gate: a plain read, an explicit refresh
(whose `Optimize` run either produced a snapshot or failed), and an item
mutation setting a new item count. -/
inductive GateOp where
  | getCached
  | refresh (result : Option Snapshot)
  | mutateItems (newCount : Nat)
deriving DecidableEq

/-- Modelled from the spec: `GetCached` returns the stored snapshot (or the
never-optimized sentinel `none`) without recomputation; the state is
untouched. -/
def GetCached (s : GateState) : GateState × Option Snapshot :=
  (s, s.snapshot)

/-- Modelled from the spec: `Refresh` forces one `Optimize` run and
replaces the stored snapshot only on success; a failed run leaves the
previous snapshot intact. -/
def Refresh (result : Option Snapshot) (s : GateState) : GateState :=
  match result with
  | some snap => { s with snapshot := some snap, optimizeRuns := s.optimizeRuns + 1 }
  | none => { s with optimizeRuns := s.optimizeRuns + 1 }

/-- One gate operation: reads leave the state alone, refreshes run
`Optimize`, item mutations change the advisory item count (making the
snapshot stale) without recomputing. -/
def applyOp : GateOp → GateState → GateState
  | GateOp.getCached, s => (GetCached s).1
  | GateOp.refresh r, s => Refresh r s
  | GateOp.mutateItems k, s => { s with itemCount := k }

/-- Run a sequence of gate operations from a state. -/
def runOps (ops : List GateOp) (s : GateState) : GateState :=
  ops.foldl (fun st op => applyOp op st) s

/-- Whether a gate operation is an explicit refresh. -/
def isRefreshOp : GateOp → Bool
  | GateOp.refresh _ => true
  | _ => false

/-- The gate traffic of `loadOptimizedCart` (`OptimizedCart.jsx`), also used
by its refresh button `handleRefreshPrices`: a single plain read of the
optimized-cart snapshot. -/
def loadOptimizedCartOps : List GateOp := [GateOp.getCached]

/-- The gate traffic of `refreshPrices` (standalone cart component,
`part_010`): a POST to the explicit refresh endpoint followed by a
re-read. -/
def refreshPricesOps (result : Option Snapshot) : List GateOp :=
  [GateOp.refresh result, GateOp.getCached]

theorem foldl_add_eq_sum {α : Type} (f : α → ℚ) (l : List α) (s : ℚ) :
    l.foldl (fun acc it => acc + f it) s = s + (l.map f).sum := by
  induction l generalizing s with
  | nil => simp
  | cons a t ih => simp [ih, add_assoc]

theorem itemSavings_eq_spec (item : CartItem) (h : ranksPositional item.recommendations) :
    itemSavings item = specItemSavings item := by
  unfold ranksPositional at h
  rcases hrecs : item.recommendations with _ | ⟨a, _ | ⟨b, t⟩⟩
  · simp [itemSavings, specItemSavings, hrecs]
  · simp [itemSavings, specItemSavings, hrecs]
  · rw [hrecs] at h
    have ha : a.rank = 1 := by simpa using h ⟨0, by simp⟩
    have hb : b.rank = 2 := by simpa using h ⟨1, by simp⟩
    simp [itemSavings, specItemSavings, hrecs, List.find?, ha, hb, mul_comm]

theorem itemSavings_nonneg (item : CartItem) (h1 : ranksPositional item.recommendations)
    (h2 : pricesAscending item.recommendations) : 0 ≤ itemSavings item := by
  rw [itemSavings_eq_spec item h1]
  unfold pricesAscending at h2
  rcases hrecs : item.recommendations with _ | ⟨a, _ | ⟨b, t⟩⟩
  · simp [specItemSavings, hrecs]
  · simp [specItemSavings, hrecs]
  · rw [hrecs] at h2
    have hab : a.price_usd ≤ b.price_usd := (List.chain'_cons.mp h2).1
    have hq : (0 : ℚ) ≤ (item.quantity : ℚ) := by positivity
    simp only [specItemSavings, hrecs]
    exact mul_nonneg hq (sub_nonneg.mpr hab)

/-- C1: for every cart whose items each carry a recommendation list that is
rank-positional (rank 1 cheapest first) and ascending in price, the
potential-savings computation of `OptimizedCart.jsx` equals the sum over
items of `quantity * (price(rank 2) - price(rank 1))` for items with at
least two recommendations and `0` otherwise, and the per-item and total
savings are nonnegative. -/
theorem calculatePotentialSavings_correct (items : List CartItem)
    (h : ∀ item ∈ items, ranksPositional item.recommendations ∧
      pricesAscending item.recommendations) :
    calculatePotentialSavingsUSD items = (items.map specItemSavings).sum ∧
    (∀ item ∈ items, 0 ≤ itemSavings item) ∧
    0 ≤ calculatePotentialSavingsUSD items := by
  have hsum : calculatePotentialSavingsUSD items = (items.map itemSavings).sum := by
    unfold calculatePotentialSavingsUSD
    rw [foldl_add_eq_sum, zero_add]
  have heach : ∀ item ∈ items, 0 ≤ itemSavings item := fun it hit =>
    itemSavings_nonneg it (h it hit).1 (h it hit).2
  refine ⟨?_, heach, ?_⟩
  · rw [hsum]
    congr 1
    exact List.map_congr_left (fun it hit => itemSavings_eq_spec it (h it hit).1)
  · rw [hsum]
    apply List.sum_nonneg
    intro x hx
    obtain ⟨it, hit, rfl⟩ := List.mem_map.mp hx
    exact heach it hit

/-- Witness for C1: the one-item example cart (milk, quantity 2, prices 2 and
3 USD) satisfies the rank-ordering precondition and the conclusions of the
claim theorem hold there. -/
theorem calculatePotentialSavings_correct_witness :
    (∀ item ∈ [milkItem], ranksPositional item.recommendations ∧
      pricesAscending item.recommendations) ∧
    (calculatePotentialSavingsUSD [milkItem] = ([milkItem].map specItemSavings).sum ∧
    (∀ item ∈ [milkItem], 0 ≤ itemSavings item) ∧
    0 ≤ calculatePotentialSavingsUSD [milkItem]) := by
  have hyp : ∀ item ∈ [milkItem], ranksPositional item.recommendations ∧
      pricesAscending item.recommendations := by
    intro item hmem
    simp only [List.mem_singleton] at hmem
    subst hmem
    refine ⟨by decide, ?_⟩
    simp only [pricesAscending, milkItem, milkBest, milkNext, List.chain'_cons,
      List.chain'_singleton, and_true]
    decide
  exact ⟨hyp, calculatePotentialSavings_correct [milkItem] hyp⟩

/-- C5: a search whose term is empty or whitespace-only fails immediately
with the invalid-query message, no outbound request is issued, and the
displayed product list is unchanged. -/
theorem handleSearch_empty_query (q : String) (srcs : List String) (topN : Nat)
    (sortByPrice equalDistribution : Bool) (res : FetchResult) (prev : UIState)
    (h : trimString q = "") :
    handleSearch q srcs topN sortByPrice equalDistribution res prev =
      ({ prev with error := "Please enter a search query" }, none) ∧
    (handleSearch q srcs topN sortByPrice equalDistribution res prev).2 = none ∧
    (handleSearch q srcs topN sortByPrice equalDistribution res prev).1.products =
      prev.products ∧
    (handleSearch q srcs topN sortByPrice equalDistribution res prev).1.error =
      "Please enter a search query" := by
  have hmain : handleSearch q srcs topN sortByPrice equalDistribution res prev =
      ({ prev with error := "Please enter a search query" }, none) := by
    simp [handleSearch, h]
  exact ⟨hmain, by rw [hmain], by rw [hmain], by rw [hmain]⟩

/-- Witness for C5: a whitespace-only query on the initial view state. -/
theorem handleSearch_empty_query_witness :
    handleSearch "   " ["alfatah"] 10 true false (FetchResult.ok []) uiInit =
      ({ uiInit with error := "Please enter a search query" }, none) ∧
    (handleSearch "   " ["alfatah"] 10 true false (FetchResult.ok []) uiInit).2 = none ∧
    (handleSearch "   " ["alfatah"] 10 true false (FetchResult.ok []) uiInit).1.products =
      uiInit.products ∧
    (handleSearch "   " ["alfatah"] 10 true false (FetchResult.ok []) uiInit).1.error =
      "Please enter a search query" :=
  handleSearch_empty_query "   " ["alfatah"] 10 true false (FetchResult.ok []) uiInit
    (by decide)

/-- C6 counterexample: a search with a non-empty term and an empty selected
source set is not rejected; the request is dispatched (with no error set). -/
theorem handleSearch_empty_sources_dispatched :
    (handleSearch "milk" [] 10 true false (FetchResult.ok []) uiInit).2 =
      some ⟨mkSearchParams "milk" [] 10 true false⟩ ∧
    (handleSearch "milk" [] 10 true false (FetchResult.ok []) uiInit).1.error = "" := by
  constructor <;> decide

/-- C6 amended: with an empty selected source set the client does not reject
the query; whenever the term is non-empty it dispatches the request, and
that request simply omits the `sources` parameter (the back end then applies
its default source set). -/
theorem handleSearch_empty_sources_amended (q : String) (topN : Nat)
    (sortByPrice equalDistribution : Bool) (res : FetchResult) (prev : UIState)
    (h : trimString q ≠ "") :
    ∃ r, (handleSearch q [] topN sortByPrice equalDistribution res prev).2 = some r ∧
      "sources" ∉ r.params.map Prod.fst := by
  refine ⟨⟨mkSearchParams q [] topN sortByPrice equalDistribution⟩, ?_, ?_⟩
  · cases res <;> simp [handleSearch, h]
  · simp [mkSearchParams]

/-- Witness for C6 amended: the query milk with no selected sources. -/
theorem handleSearch_empty_sources_amended_witness :
    ∃ r, (handleSearch "milk" [] 10 true false (FetchResult.ok []) uiInit).2 = some r ∧
      "sources" ∉ r.params.map Prod.fst :=
  handleSearch_empty_sources_amended "milk" 10 true false (FetchResult.ok []) uiInit
    (by decide)

/-- C4 counterexample: no function of the delivered view state recovers the
failed-source list; a run where two sources failed and a run where every
source succeeded (two returning nothing) deliver identical states. -/
theorem searchResponse_no_failure_report :
    ¬ ∃ f : UIState → List String,
        ∀ outcomes : List SourceOutcome,
          f (deliverSearchResponse "milk" ["alfatah", "daraz", "imtiaz"] outcomes uiInit) =
            failedSources outcomes := by
  rintro ⟨f, hf⟩
  have h1 := hf outcomesAllOk
  have h2 := hf outcomesTwoFailed
  have heq : deliverSearchResponse "milk" ["alfatah", "daraz", "imtiaz"] outcomesAllOk uiInit =
      deliverSearchResponse "milk" ["alfatah", "daraz", "imtiaz"] outcomesTwoFailed uiInit := by
    decide
  rw [heq] at h1
  rw [h1] at h2
  exact absurd h2 (by decide)

/-- C4 amended: the search response delivered to the caller carries only the
product data of the sources that completed; the error field is empty and no
failed-source report is part of the delivered state, so two runs with the
same collected products are indistinguishable to the caller. -/
theorem searchResponse_products_only (q : String) (srcs : List String)
    (outcomes1 outcomes2 : List SourceOutcome) (prev : UIState) (h : trimString q ≠ "") :
    (deliverSearchResponse q srcs outcomes1 prev).products = coordinatorResults outcomes1 ∧
    (deliverSearchResponse q srcs outcomes1 prev).error = "" ∧
    (coordinatorResults outcomes1 = coordinatorResults outcomes2 →
      deliverSearchResponse q srcs outcomes1 prev =
        deliverSearchResponse q srcs outcomes2 prev) := by
  refine ⟨?_, ?_, ?_⟩
  · simp [deliverSearchResponse, handleSearch, h]
  · simp [deliverSearchResponse, handleSearch, h]
  · intro hc
    simp only [deliverSearchResponse, hc]

/-- Witness for C4 amended: a concrete delivery with one product collected. -/
theorem searchResponse_products_only_witness :
    (deliverSearchResponse "milk" ["alfatah", "daraz", "imtiaz"] outcomesTwoFailed
        uiInit).products = coordinatorResults outcomesTwoFailed ∧
    (deliverSearchResponse "milk" ["alfatah", "daraz", "imtiaz"] outcomesTwoFailed
        uiInit).error = "" ∧
    (coordinatorResults outcomesTwoFailed = coordinatorResults outcomesAllOk →
      deliverSearchResponse "milk" ["alfatah", "daraz", "imtiaz"] outcomesTwoFailed uiInit =
        deliverSearchResponse "milk" ["alfatah", "daraz", "imtiaz"] outcomesAllOk uiInit) :=
  searchResponse_products_only "milk" ["alfatah", "daraz", "imtiaz"] outcomesTwoFailed
    outcomesAllOk uiInit (by decide)

/-- C9 counterexample: on the empty URL the two views disagree: the
standalone app renders the View Product link, the page does not. -/
theorem showsLink_conditions_differ :
    appShowsLink "" = true ∧ pageShowsLink "" = false := by
  constructor <;> decide

/-- C9 amended: the two views do not share one condition.  The page renders
the link exactly when the URL starts with `http`; the standalone app renders
it whenever the URL differs from the `N/A` sentinel; the page condition
strictly implies the app condition (they differ, e.g., on the empty URL). -/
theorem showsLink_characterization (url : String) :
    pageShowsLink url = startsWithString url "http" ∧
    (pageShowsLink url = true → appShowsLink url = true) := by
  constructor
  · by_cases h1 : url = ""
    · subst h1; decide
    · by_cases h2 : url = "N/A"
      · subst h2; decide
      · simp [pageShowsLink, h1, h2]
  · intro h
    by_cases h2 : url = "N/A"
    · subst h2; simp [pageShowsLink] at h
    · simp [appShowsLink, h2]

/-- Witness for C9 amended: a URL that starts with `http` is shown by both
views. -/
theorem showsLink_characterization_witness :
    appShowsLink "https://alfatah.pk/milk" = true :=
  (showsLink_characterization "https://alfatah.pk/milk").2 (by decide)

/-- C7 counterexample: a cart whose fetched expense total is 0 is fully
marked purchased, yet zero (not exactly one) expense events are emitted. -/
theorem confirmPurchaseAll_zero_amount_no_event :
    (confirmPurchaseAll "Groceries" { success := true, amount := 0 } true "2026-10-11").2 =
      true ∧
    (confirmPurchaseAll "Groceries" { success := true, amount := 0 } true "2026-10-11").1 =
      [] := by
  constructor <;> decide

/-- C7 amended: when the expense-data fetch succeeds with a positive amount
and the purchase-all call goes through, exactly one expense event is emitted,
carrying the cart name as description, the fetched reference-currency total
as amount, category shopping and the current date; when the fetched data
failed or reports amount 0, the cart is still fully marked purchased but no
expense event is emitted. -/
theorem confirmPurchaseAll_amended (listName today : String) (ed : ExpenseData)
    (h1 : ed.success = true) (h2 : 0 < ed.amount) :
    confirmPurchaseAll listName ed true today =
      ([{ description := listName, amount := ed.amount, category := "shopping",
          expense_date := today }], true) ∧
    (∀ ed2 : ExpenseData, ¬(ed2.success = true ∧ 0 < ed2.amount) →
      confirmPurchaseAll listName ed2 true today = ([], true)) := by
  constructor
  · unfold confirmPurchaseAll
    rw [if_neg (by simp), if_pos ⟨h1, h2⟩]
  · intro ed2 hn
    unfold confirmPurchaseAll
    rw [if_neg (by simp), if_neg hn]

/-- Witness for C7 amended: a 25 USD cart produces exactly the one expected
expense event, and a failed expense-data fetch produces none. -/
theorem confirmPurchaseAll_amended_witness :
    confirmPurchaseAll "Groceries" { success := true, amount := 25 } true "2026-10-11" =
      ([{ description := "Groceries", amount := 25, category := "shopping",
          expense_date := "2026-10-11" }], true) ∧
    (∀ ed2 : ExpenseData, ¬(ed2.success = true ∧ 0 < ed2.amount) →
      confirmPurchaseAll "Groceries" ed2 true "2026-10-11" = ([], true)) :=
  confirmPurchaseAll_amended "Groceries" "2026-10-11" { success := true, amount := 25 }
    rfl (by decide)

/-- C8: every item carried by a dispatched create-cart request has a
non-empty (trimmed) product name and a positive integer quantity; when no
submitted item is valid, no request is sent, an error is reported, and the
stored lists are unchanged (indeed the handler never touches them). -/
theorem handleCreateList_validates (listName : String) (items : List FormItem)
    (userOk : Bool) (prevLists : List String) :
    (∀ r, (handleCreateList listName items userOk prevLists).1 = some r →
      ∀ it ∈ r.items, trimString it.product_name ≠ "" ∧
        ∃ n : Int, it.quantity = some n ∧ 0 < n) ∧
    ((∀ it ∈ items, itemValid it = false) →
      (handleCreateList listName items userOk prevLists).1 = none ∧
      (handleCreateList listName items userOk prevLists).2.1 ≠ "" ∧
      (handleCreateList listName items userOk prevLists).2.2 = prevLists) ∧
    (handleCreateList listName items userOk prevLists).2.2 = prevLists := by
  refine ⟨?_, ?_, ?_⟩
  · intro r hr it hit
    have hitems : it ∈ items.filter itemValid := by
      unfold handleCreateList at hr
      split_ifs at hr
      simp at hr
      rw [← hr] at hit
      simpa using hit
    have hvalid : itemValid it = true := List.of_mem_filter hitems
    unfold itemValid at hvalid
    rcases hq : it.quantity with _ | n
    · rw [hq] at hvalid
      simp at hvalid
    · rw [hq] at hvalid
      simp only [Bool.and_eq_true, bne_iff_ne, ne_eq, decide_eq_true_eq] at hvalid
      exact ⟨hvalid.1, n, rfl, hvalid.2⟩
  · intro hall
    have hfilter : items.filter itemValid = [] :=
      List.filter_eq_nil_iff.mpr (by simpa using hall)
    unfold handleCreateList
    split_ifs with h1 h2 h3
    · exact ⟨rfl, show "Please enter a list name" ≠ "" by decide, rfl⟩
    · exact ⟨rfl,
        show "Please add at least one item with a valid name and quantity" ≠ "" by decide,
        rfl⟩
    · exact absurd (by simp [hfilter]) h2
    · exact absurd (by simp [hfilter]) h2
  · unfold handleCreateList
    split_ifs <;> rfl

/-- Witness for C8: a submission whose two items are both invalid (blank
name, and empty quantity) yields no request, an error, and unchanged
lists. -/
theorem handleCreateList_validates_witness :
    (handleCreateList "Groceries" [{ product_name := " ", quantity := some 2 },
      { product_name := "milk", quantity := none }] true ["old"]).1 = none ∧
    (handleCreateList "Groceries" [{ product_name := " ", quantity := some 2 },
      { product_name := "milk", quantity := none }] true ["old"]).2.1 ≠ "" ∧
    (handleCreateList "Groceries" [{ product_name := " ", quantity := some 2 },
      { product_name := "milk", quantity := none }] true ["old"]).2.2 = ["old"] :=
  (handleCreateList_validates "Groceries" [{ product_name := " ", quantity := some 2 },
    { product_name := "milk", quantity := none }] true ["old"]).2.1 (by decide)

/-- C10 counterexample: typing `-2` into the quantity field stores the
negative integer `-2`, which is not a positive integer, and blurring the
field leaves it at `-2`, below 1. -/
theorem quantityAfterChange_negative :
    quantityAfterChange "-2" = some (-2) ∧
    quantityOnBlur (quantityAfterChange "-2") = some (-2) ∧
    ¬(1 ≤ (-2 : Int)) := by
  refine ⟨by decide, by decide, by decide⟩

/-- C10 amended: the quantity field holds either the empty string or a
nonzero integer parsed from the input (a negative parse is stored as is);
on blur an empty or zero value is replaced with 1 and any other value is
kept, so a field that was empty, zero or positive at blur time ends with
quantity at least 1. -/
theorem quantityField_amended :
    (∀ v, quantityAfterChange v = none ∨
      ∃ n : Int, quantityAfterChange v = some n ∧ n ≠ 0) ∧
    quantityOnBlur none = some 1 ∧
    (∀ n : Int, quantityOnBlur (some n) = if n = 0 then some 1 else some n) ∧
    (∀ n : Int, 0 < n → ∃ m : Int, quantityOnBlur (some n) = some m ∧ 1 ≤ m) := by
  refine ⟨?_, by decide, ?_, ?_⟩
  · intro v
    unfold quantityAfterChange
    by_cases hv : v = ""
    · left; simp [hv]
    · rcases hp : parseIntJS v with _ | n
      · left; simp [hv, hp]
      · by_cases hn : n = 0
        · left; simp [hv, hp, hn]
        · right; exact ⟨n, by simp [hv, hp, hn], hn⟩
  · intro n
    by_cases hn : n = 0 <;> simp [quantityOnBlur, hn]
  · intro n hn
    refine ⟨n, ?_, hn⟩
    simp [quantityOnBlur, hn.ne']

/-- Witness for C10 amended: a field holding 5 at blur time keeps a value of
at least 1. -/
theorem quantityField_amended_witness :
    ∃ m : Int, quantityOnBlur (some 5) = some m ∧ 1 ≤ m :=
  quantityField_amended.2.2.2 5 (by decide)

theorem assignRanks_length (n : Nat) (l : List NormalizedProduct) :
    (assignRanks n l).length = l.length := by
  induction l generalizing n with
  | nil => rfl
  | cons p rest ih => simp [assignRanks, ih]

theorem assignRanks_get (n : Nat) (l : List NormalizedProduct) (i : Nat)
    (h : i < (assignRanks n l).length) (h2 : i < l.length) :
    (assignRanks n l).get ⟨i, h⟩ = { product := l.get ⟨i, h2⟩, rank := n + i } := by
  induction l generalizing n i with
  | nil => exact absurd h2 (by simp)
  | cons p rest ih =>
    cases i with
    | zero => simp [assignRanks]
    | succ k =>
      have hk : k < (assignRanks (n + 1) rest).length := by
        simpa [assignRanks] using h
      have hk2 : k < rest.length := by simpa using h2
      have := ih (n + 1) k hk hk2
      simp only [assignRanks, List.get_cons_succ]
      rw [this]
      congr 1
      omega

theorem priceLe_price {a b : NormalizedProduct} (h : priceLe a b) :
    a.price_usd ≤ b.price_usd := by
  unfold priceLe prodKey at h
  rcases (Prod.Lex.le_iff _ _).mp h with hlt | ⟨heq, _⟩
  · exact le_of_lt hlt
  · exact le_of_eq heq

theorem assignRanks_take_sorted (l : List NormalizedProduct) (k : Nat)
    (hsort : List.Sorted priceLe l) :
    (∀ i : Fin (assignRanks 1 (l.take k)).length,
      ((assignRanks 1 (l.take k)).get i).rank = i.val + 1) ∧
    (∀ i j : Fin (assignRanks 1 (l.take k)).length, i.val ≤ j.val →
      ((assignRanks 1 (l.take k)).get i).product.price_usd ≤
        ((assignRanks 1 (l.take k)).get j).product.price_usd) := by
  have hsortL : List.Sorted priceLe (l.take k) :=
    List.Pairwise.sublist (List.take_sublist k l) hsort
  have hlen : (assignRanks 1 (l.take k)).length = (l.take k).length :=
    assignRanks_length 1 (l.take k)
  have hget : ∀ i : Fin (assignRanks 1 (l.take k)).length,
      (assignRanks 1 (l.take k)).get i =
        { product := (l.take k).get ⟨i.val, hlen ▸ i.isLt⟩, rank := 1 + i.val } := by
    intro i
    exact assignRanks_get 1 (l.take k) i.val i.isLt (hlen ▸ i.isLt)
  constructor
  · intro i
    rw [hget i]
    show 1 + i.val = i.val + 1
    omega
  · intro i j hij
    rw [hget i, hget j]
    rcases Nat.lt_or_ge i.val j.val with hlt | hge
    · exact priceLe_price
        (List.pairwise_iff_get.mp hsortL ⟨i.val, hlen ▸ i.isLt⟩ ⟨j.val, hlen ▸ j.isLt⟩ hlt)
    · have : i.val = j.val := Nat.le_antisymm hij hge
      simp [this]

/-- C2: in the Ranker output with `sortByPrice` set, rank is positional and
1-based (hence unique and strictly increasing along the list), the
normalized reference-currency price is monotone in list position, and the
entry at position 0 is the cheapest pick for the item.  The Ranker is
modelled from the spec (sect. 4.4) since `sda_app/fastapi_backend.py` is not
among the sources at hand. -/
theorem Select_rank_invariant (cfg : SelectConfig) (records : List NormalizedProduct)
    (hs : cfg.sortByPrice = true) :
    (∀ i : Fin (Select cfg records).length, ((Select cfg records).get i).rank = i.val + 1) ∧
    (∀ i j : Fin (Select cfg records).length, i.val < j.val →
      ((Select cfg records).get i).rank < ((Select cfg records).get j).rank) ∧
    (∀ i j : Fin (Select cfg records).length, i.val ≤ j.val →
      ((Select cfg records).get i).product.price_usd ≤
        ((Select cfg records).get j).product.price_usd) ∧
    (∀ (h0 : 0 < (Select cfg records).length) (j : Fin (Select cfg records).length),
      ((Select cfg records).get ⟨0, h0⟩).product.price_usd ≤
        ((Select cfg records).get j).product.price_usd) := by
  have hsel : Select cfg records =
      assignRanks 1
        ((List.insertionSort priceLe (capStep cfg (dedupFirst [] records))).take cfg.topN) := by
    unfold Select
    rw [hs]
    simp
  have hsort : List.Sorted priceLe
      (List.insertionSort priceLe (capStep cfg (dedupFirst [] records))) :=
    List.sorted_insertionSort priceLe (capStep cfg (dedupFirst [] records))
  have hmain := assignRanks_take_sorted
    (List.insertionSort priceLe (capStep cfg (dedupFirst [] records))) cfg.topN hsort
  rw [← hsel] at hmain
  refine ⟨hmain.1, ?_, hmain.2, ?_⟩
  · intro i j hij
    rw [hmain.1 i, hmain.1 j]
    omega
  · intro h0 j
    exact hmain.2 ⟨0, h0⟩ j (Nat.zero_le _)

/-- Witness for C2: the rank and price invariants instantiated at a concrete
two-source batch sorted by price. -/
theorem Select_rank_invariant_witness :
    (∀ i : Fin (Select { topN := 5, sortByPrice := true, equalDistribution := false }
        [{ source := "Daraz", srcIdx := 1, arrival := 0, name := "Milk 1L",
           price_pkr := 542, price_usd := 2, url := "https://daraz.pk/milk" },
         { source := "Alfatah", srcIdx := 0, arrival := 1, name := "Milk 1L",
           price_pkr := 584, price_usd := 3, url := "https://alfatah.pk/milk" }]).length,
      ((Select { topN := 5, sortByPrice := true, equalDistribution := false }
        [{ source := "Daraz", srcIdx := 1, arrival := 0, name := "Milk 1L",
           price_pkr := 542, price_usd := 2, url := "https://daraz.pk/milk" },
         { source := "Alfatah", srcIdx := 0, arrival := 1, name := "Milk 1L",
           price_pkr := 584, price_usd := 3, url := "https://alfatah.pk/milk" }]).get i).rank =
        i.val + 1) ∧
    (∀ i j : Fin (Select { topN := 5, sortByPrice := true, equalDistribution := false }
        [{ source := "Daraz", srcIdx := 1, arrival := 0, name := "Milk 1L",
           price_pkr := 542, price_usd := 2, url := "https://daraz.pk/milk" },
         { source := "Alfatah", srcIdx := 0, arrival := 1, name := "Milk 1L",
           price_pkr := 584, price_usd := 3, url := "https://alfatah.pk/milk" }]).length,
      i.val < j.val →
      ((Select { topN := 5, sortByPrice := true, equalDistribution := false }
        [{ source := "Daraz", srcIdx := 1, arrival := 0, name := "Milk 1L",
           price_pkr := 542, price_usd := 2, url := "https://daraz.pk/milk" },
         { source := "Alfatah", srcIdx := 0, arrival := 1, name := "Milk 1L",
           price_pkr := 584, price_usd := 3, url := "https://alfatah.pk/milk" }]).get i).rank <
        ((Select { topN := 5, sortByPrice := true, equalDistribution := false }
        [{ source := "Daraz", srcIdx := 1, arrival := 0, name := "Milk 1L",
           price_pkr := 542, price_usd := 2, url := "https://daraz.pk/milk" },
         { source := "Alfatah", srcIdx := 0, arrival := 1, name := "Milk 1L",
           price_pkr := 584, price_usd := 3, url := "https://alfatah.pk/milk" }]).get j).rank) ∧
    (∀ i j : Fin (Select { topN := 5, sortByPrice := true, equalDistribution := false }
        [{ source := "Daraz", srcIdx := 1, arrival := 0, name := "Milk 1L",
           price_pkr := 542, price_usd := 2, url := "https://daraz.pk/milk" },
         { source := "Alfatah", srcIdx := 0, arrival := 1, name := "Milk 1L",
           price_pkr := 584, price_usd := 3, url := "https://alfatah.pk/milk" }]).length,
      i.val ≤ j.val →
      ((Select { topN := 5, sortByPrice := true, equalDistribution := false }
        [{ source := "Daraz", srcIdx := 1, arrival := 0, name := "Milk 1L",
           price_pkr := 542, price_usd := 2, url := "https://daraz.pk/milk" },
         { source := "Alfatah", srcIdx := 0, arrival := 1, name := "Milk 1L",
           price_pkr := 584, price_usd := 3, url := "https://alfatah.pk/milk" }]).get
          i).product.price_usd ≤
        ((Select { topN := 5, sortByPrice := true, equalDistribution := false }
        [{ source := "Daraz", srcIdx := 1, arrival := 0, name := "Milk 1L",
           price_pkr := 542, price_usd := 2, url := "https://daraz.pk/milk" },
         { source := "Alfatah", srcIdx := 0, arrival := 1, name := "Milk 1L",
           price_pkr := 584, price_usd := 3, url := "https://alfatah.pk/milk" }]).get
          j).product.price_usd) ∧
    (∀ (h0 : 0 < (Select { topN := 5, sortByPrice := true, equalDistribution := false }
        [{ source := "Daraz", srcIdx := 1, arrival := 0, name := "Milk 1L",
           price_pkr := 542, price_usd := 2, url := "https://daraz.pk/milk" },
         { source := "Alfatah", srcIdx := 0, arrival := 1, name := "Milk 1L",
           price_pkr := 584, price_usd := 3, url := "https://alfatah.pk/milk" }]).length)
      (j : Fin (Select { topN := 5, sortByPrice := true, equalDistribution := false }
        [{ source := "Daraz", srcIdx := 1, arrival := 0, name := "Milk 1L",
           price_pkr := 542, price_usd := 2, url := "https://daraz.pk/milk" },
         { source := "Alfatah", srcIdx := 0, arrival := 1, name := "Milk 1L",
           price_pkr := 584, price_usd := 3, url := "https://alfatah.pk/milk" }]).length),
      ((Select { topN := 5, sortByPrice := true, equalDistribution := false }
        [{ source := "Daraz", srcIdx := 1, arrival := 0, name := "Milk 1L",
           price_pkr := 542, price_usd := 2, url := "https://daraz.pk/milk" },
         { source := "Alfatah", srcIdx := 0, arrival := 1, name := "Milk 1L",
           price_pkr := 584, price_usd := 3, url := "https://alfatah.pk/milk" }]).get
          ⟨0, h0⟩).product.price_usd ≤
        ((Select { topN := 5, sortByPrice := true, equalDistribution := false }
        [{ source := "Daraz", srcIdx := 1, arrival := 0, name := "Milk 1L",
           price_pkr := 542, price_usd := 2, url := "https://daraz.pk/milk" },
         { source := "Alfatah", srcIdx := 0, arrival := 1, name := "Milk 1L",
           price_pkr := 584, price_usd := 3, url := "https://alfatah.pk/milk" }]).get
          j).product.price_usd) :=
  Select_rank_invariant { topN := 5, sortByPrice := true, equalDistribution := false }
    [{ source := "Daraz", srcIdx := 1, arrival := 0, name := "Milk 1L",
       price_pkr := 542, price_usd := 2, url := "https://daraz.pk/milk" },
     { source := "Alfatah", srcIdx := 0, arrival := 1, name := "Milk 1L",
       price_pkr := 584, price_usd := 3, url := "https://alfatah.pk/milk" }] rfl

/-- C3: reading the cached optimization snapshot never recomputes:
`GetCached` leaves the gate state untouched and returns the stored
snapshot, across any operation sequence the number of `Optimize` runs grows
exactly by the number of explicit refresh operations in it (reads and item
mutations contribute zero), a plain load of the optimized-cart view changes
nothing, and the standalone refresh flow performs exactly one run.  The
cache gate is modelled from the spec (sect. 4.6) since
`sda_app/fastapi_backend.py` is not among the sources at hand. -/
theorem getCached_never_recomputes (s : GateState) (r : Option Snapshot) :
    GetCached s = (s, s.snapshot) ∧
    (∀ ops : List GateOp,
      (runOps ops s).optimizeRuns = s.optimizeRuns + ops.countP isRefreshOp) ∧
    runOps loadOptimizedCartOps s = s ∧
    (runOps (refreshPricesOps r) s).optimizeRuns = s.optimizeRuns + 1 := by
  refine ⟨rfl, ?_, rfl, ?_⟩
  · intro ops
    induction ops generalizing s with
    | nil => simp [runOps]
    | cons op rest ih =>
      rw [show runOps (op :: rest) s = runOps rest (applyOp op s) from rfl,
        ih (applyOp op s)]
      cases op with
      | getCached => simp [applyOp, GetCached, isRefreshOp, List.countP_cons]
      | refresh r2 =>
        cases r2 <;>
          simp [applyOp, Refresh, isRefreshOp, List.countP_cons] <;> omega
      | mutateItems k => simp [applyOp, isRefreshOp, List.countP_cons]
  · cases r <;> rfl

end PaisaPro
